import Mathlib

/-!
Verification of `packages/next/src/client/components/redirect.ts`.

The module encodes a redirect intent (destination url, navigation mode,
permanence) into a tagged string carried on a thrown error-like object,
and recognizes / decodes such objects later.  We embed the JavaScript
values that matter (undefined, null, objects carrying an optional
`digest` attribute and an optional cookie reference) and the exact
semantics of `String.prototype.split(sep, limit)`, which in JavaScript
truncates the result to the first `limit` pieces of the full split.
-/

/-- The tag constant `REDIRECT_ERROR_CODE = 'NEXT_REDIRECT'`. -/
def REDIRECT_ERROR_CODE : String := "NEXT_REDIRECT"

/-- The enum `RedirectType { push = 'push', replace = 'replace' }`. -/
inductive RedirectType where
  | push
  | replace
deriving DecidableEq, Repr

/-- The string value of a `RedirectType` enum member. -/
def RedirectType.toStr : RedirectType → String
  | .push => "push"
  | .replace => "replace"

/-- Modelled from the spec: the external `ResponseCookies` cookie jar
(from `../../server/web/spec-extension/cookies`, not part of this
module).  Its internals are irrelevant here; it is an opaque reference
token attached to a signal. -/
structure ResponseCookies where
  ref : Nat
deriving DecidableEq, Repr

/-- Modelled from the spec: the request-scoped store returned by
`requestAsyncStorage.getStore()` (an ambient, call-stack-scoped context
supplied by the collaborator runtime).  Only its `mutableCookies` field
is read by this module.  The ambient lookup is embedded as an explicit
`Option RequestStore` argument. -/
structure RequestStore where
  mutableCookies : ResponseCookies
deriving DecidableEq, Repr

/-- A JavaScript property slot: absent, present but not a string, or a
string. -/
inductive JSProp where
  | missing
  | nonStringProp
  | strProp (s : String)
deriving DecidableEq, Repr

/-- The JavaScript values flowing into the recognizer / extractors:
`undefined`, `null`, or an object (in particular an `Error`) with a
`message`, a `digest` property slot, and an optional `mutableCookies`
reference. -/
inductive JSValue where
  | undefinedV
  | nullV
  | obj (message : String) (digest : JSProp) (mutableCookies : Option ResponseCookies)
deriving DecidableEq, Repr

/-- `error?.digest` when it is a string: models the guard
`typeof error?.digest === 'string'` (optional chaining yields
`undefined` on `undefined`/`null`; a missing or non-string property
fails the `typeof` test). -/
def JSValue.digestStr : JSValue → Option String
  | .obj _ (.strProp s) _ => some s
  | _ => none

/-- The `message` of an error-like object, when the value is one. -/
def JSValue.messageStr : JSValue → Option String
  | .obj m _ _ => some m
  | _ => none

/-- The `mutableCookies` reference carried by an object, if any. -/
def JSValue.cookiesRef : JSValue → Option ResponseCookies
  | .obj _ _ c => c
  | _ => none

/-- JavaScript string interpolation of a boolean: `${permanent}`. -/
def jsBoolString (b : Bool) : String :=
  if b then "true" else "false"

/-- The full JavaScript split of a character list on a one-character
separator: `"".split(";")` is `[""]`, and every separator occurrence
starts a new (possibly empty) piece. -/
def jsSplitAll (sep : Char) : List Char → List (List Char)
  | [] => [[]]
  | x :: xs =>
    if x = sep then [] :: jsSplitAll sep xs
    else
      match jsSplitAll sep xs with
      | [] => [[x]]
      | h :: t => (x :: h) :: t

/-- JavaScript `s.split(sep, limit)` for a one-character separator:
the full split truncated to its first `limit` pieces (the remainder of
the string is discarded, not appended to the last piece). -/
def jsSplit (s : String) (sep : Char) (limit : Nat) : List String :=
  ((jsSplitAll sep s.data).map String.mk).take limit

/-- `getRedirectError(url, type, permanent)`: builds the error-like
object with message `REDIRECT_ERROR_CODE`, digest
`` `${REDIRECT_ERROR_CODE};${type};${url};${permanent}` ``, and, when a
request store is active, its `mutableCookies` attached. -/
def getRedirectError (url : String) (type' : RedirectType) (permanent : Bool)
    (requestStore : Option RequestStore) : JSValue :=
  .obj REDIRECT_ERROR_CODE
    (.strProp (REDIRECT_ERROR_CODE ++ ";" ++ type'.toStr ++ ";" ++ url ++ ";"
      ++ jsBoolString permanent))
    (requestStore.map RequestStore.mutableCookies)

/-- The default value of the `type` parameter of `redirect` and
`permanentRedirect`: `RedirectType.replace`. -/
def redirectTypeDefault : RedirectType := .replace

/-- `redirect(url, type = RedirectType.replace)` returns `never` and
throws `getRedirectError(url, type, false)`; the embedding yields the
thrown value. -/
def redirect (url : String) (type' : RedirectType)
    (requestStore : Option RequestStore) : JSValue :=
  getRedirectError url type' false requestStore

/-- `permanentRedirect(url, type = RedirectType.replace)` returns
`never` and throws `getRedirectError(url, type, true)`; the embedding
yields the thrown value. -/
def permanentRedirect (url : String) (type' : RedirectType)
    (requestStore : Option RequestStore) : JSValue :=
  getRedirectError url type' true requestStore

/-- The digest test inside `isRedirectError`: destructure
`digest.split(';', 4)` into `[errorCode, type, destination, permanent]`
(absent positions are `undefined`) and check each field. -/
def isRedirectErrorDigest (s : String) : Bool :=
  let fields := jsSplit s ';' 4
  (fields[0]? == some REDIRECT_ERROR_CODE) &&
    ((fields[1]? == some "replace") || (fields[1]? == some "push")) &&
    (fields[2]?).isSome &&
    ((fields[3]? == some "true") || (fields[3]? == some "false"))

/-- `isRedirectError(error)`: false unless `error?.digest` is a string
whose split passes the four field checks. -/
def isRedirectError (error : JSValue) : Bool :=
  match error.digestStr with
  | some s => isRedirectErrorDigest s
  | none => false

/-- `getURLFromRedirectError(error)`: `null` (here `none`) unless the
value is a redirect error, else `error.digest.split(';', 3)[2]`. -/
def getURLFromRedirectError (error : JSValue) : Option String :=
  match error.digestStr with
  | some s => if isRedirectErrorDigest s then (jsSplit s ';' 3)[2]? else none
  | none => none

/-- `getRedirectTypeFromError(error)`: throws `'Not a redirect error'`
unless the value is a redirect error, else returns
`error.digest.split(';', 2)[1]` (the `as RedirectType` cast is a no-op
on the runtime string). -/
def getRedirectTypeFromError (error : JSValue) : Except String (Option String) :=
  match error.digestStr with
  | some s =>
    if isRedirectErrorDigest s then .ok (jsSplit s ';' 2)[1]?
    else .error "Not a redirect error"
  | none => .error "Not a redirect error"

/-- `getRedirectStatusCodeFromError(error)`: throws
`'Not a redirect error'` unless the value is a redirect error, else
`error.digest.split(';', 4)[3] === 'true' ? 308 : 307`. -/
def getRedirectStatusCodeFromError (error : JSValue) : Except String Nat :=
  match error.digestStr with
  | some s =>
    if isRedirectErrorDigest s then
      .ok (if (jsSplit s ';' 4)[3]? == some "true" then 308 else 307)
    else .error "Not a redirect error"
  | none => .error "Not a redirect error"

/-- A separator-free piece is split into itself alone. -/
theorem jsSplitAll_of_not_mem (sep : Char) (x : List Char) (h : sep ∉ x) :
    jsSplitAll sep x = [x] := by
  induction x with
  | nil => rfl
  | cons a x ih =>
    have ha : ¬ a = sep := fun hEq => h (hEq ▸ List.mem_cons_self a x)
    have hx : sep ∉ x := fun hm => h (List.mem_cons_of_mem a hm)
    simp [jsSplitAll, ha, ih hx]

/-- Splitting past a separator-free piece followed by a separator peels
that piece off the front. -/
theorem jsSplitAll_append_sep (sep : Char) (x y : List Char) (h : sep ∉ x) :
    jsSplitAll sep (x ++ sep :: y) = x :: jsSplitAll sep y := by
  induction x with
  | nil => simp [jsSplitAll]
  | cons a x ih =>
    have ha : ¬ a = sep := fun hEq => h (hEq ▸ List.mem_cons_self a x)
    have hx : sep ∉ x := fun hm => h (List.mem_cons_of_mem a hm)
    simp [jsSplitAll, ha, ih hx]

/-- The character data of the digest built by `getRedirectError`,
written with the three separators explicit. -/
theorem digest_data (url : String) (type' : RedirectType) (permanent : Bool) :
    (REDIRECT_ERROR_CODE ++ ";" ++ type'.toStr ++ ";" ++ url ++ ";"
        ++ jsBoolString permanent).data
      = REDIRECT_ERROR_CODE.data
          ++ (';' :: (type'.toStr.data
          ++ (';' :: (url.data
          ++ (';' :: (jsBoolString permanent).data))))) := by
  have hsep : (";" : String).data = [';'] := rfl
  simp [String.data_append, hsep]

/-- The navigation-mode literal never contains the delimiter. -/
theorem sep_not_mem_toStr (type' : RedirectType) : ';' ∉ type'.toStr.data := by
  cases type' <;> decide

/-- The boolean literal never contains the delimiter. -/
theorem sep_not_mem_jsBoolString (b : Bool) : ';' ∉ (jsBoolString b).data := by
  cases b <;> decide

/-- For a delimiter-free destination, the full split of the digest is
exactly the four encoded fields. -/
theorem jsSplitAll_digest (url : String) (type' : RedirectType) (permanent : Bool)
    (h : ';' ∉ url.data) :
    jsSplitAll ';' (REDIRECT_ERROR_CODE ++ ";" ++ type'.toStr ++ ";" ++ url ++ ";"
        ++ jsBoolString permanent).data
      = [REDIRECT_ERROR_CODE.data, type'.toStr.data, url.data,
          (jsBoolString permanent).data] := by
  rw [digest_data]
  rw [jsSplitAll_append_sep ';' REDIRECT_ERROR_CODE.data _ (by decide)]
  rw [jsSplitAll_append_sep ';' type'.toStr.data _ (sep_not_mem_toStr type')]
  rw [jsSplitAll_append_sep ';' url.data _ h]
  rw [jsSplitAll_of_not_mem ';' _ (sep_not_mem_jsBoolString permanent)]

/-- Truncated split of the digest at any limit: the fields of
`digest.split(';', n)` for a delimiter-free destination. -/
theorem jsSplit_digest (url : String) (type' : RedirectType) (permanent : Bool)
    (n : Nat) (h : ';' ∉ url.data) :
    jsSplit (REDIRECT_ERROR_CODE ++ ";" ++ type'.toStr ++ ";" ++ url ++ ";"
        ++ jsBoolString permanent) ';' n
      = [REDIRECT_ERROR_CODE, type'.toStr, url, jsBoolString permanent].take n := by
  unfold jsSplit
  rw [jsSplitAll_digest url type' permanent h]
  rfl

/-- A signal digest with a delimiter-free destination passes every
field check of the recognizer. -/
theorem isRedirectErrorDigest_encode (url : String) (t : RedirectType) (p : Bool)
    (h : ';' ∉ url.data) :
    isRedirectErrorDigest (REDIRECT_ERROR_CODE ++ ";" ++ t.toStr ++ ";" ++ url
      ++ ";" ++ jsBoolString p) = true := by
  unfold isRedirectErrorDigest
  rw [jsSplit_digest url t p 4 h]
  cases t <;> cases p <;> rfl

/-- Recognition of a constructed signal with a delimiter-free
destination. -/
theorem isRedirectError_encode (url : String) (t : RedirectType) (p : Bool)
    (st : Option RequestStore) (h : ';' ∉ url.data) :
    isRedirectError (getRedirectError url t p st) = true :=
  isRedirectErrorDigest_encode url t p h

/-- URL extraction from a constructed signal with a delimiter-free
destination. -/
theorem getURLFromRedirectError_encode (url : String) (t : RedirectType) (p : Bool)
    (st : Option RequestStore) (h : ';' ∉ url.data) :
    getURLFromRedirectError (getRedirectError url t p st) = some url := by
  show (if isRedirectErrorDigest _ then _ else none) = some url
  rw [isRedirectErrorDigest_encode url t p h, if_pos rfl, jsSplit_digest url t p 3 h]
  rfl

/-- Navigation-mode extraction from a constructed signal with a
delimiter-free destination. -/
theorem getRedirectTypeFromError_encode (url : String) (t : RedirectType) (p : Bool)
    (st : Option RequestStore) (h : ';' ∉ url.data) :
    getRedirectTypeFromError (getRedirectError url t p st) = .ok (some t.toStr) := by
  show (if isRedirectErrorDigest _ then _ else _) = Except.ok (some t.toStr)
  rw [isRedirectErrorDigest_encode url t p h, if_pos rfl, jsSplit_digest url t p 2 h]
  rfl

/-- Status-code extraction from a constructed signal with a
delimiter-free destination. -/
theorem getRedirectStatusCodeFromError_encode (url : String) (t : RedirectType) (p : Bool)
    (st : Option RequestStore) (h : ';' ∉ url.data) :
    getRedirectStatusCodeFromError (getRedirectError url t p st)
      = .ok (if p then 308 else 307) := by
  show (if isRedirectErrorDigest _ then _ else _) = Except.ok (if p then 308 else 307)
  rw [isRedirectErrorDigest_encode url t p h, if_pos rfl, jsSplit_digest url t p 4 h]
  cases p <;> rfl

/-- The full split of a digest followed by a delimiter and arbitrary
extra content: the four fields, then the split of the extra content. -/
theorem jsSplitAll_digest_extra (url : String) (t : RedirectType) (p : Bool)
    (extra : String) (h : ';' ∉ url.data) :
    jsSplitAll ';' (REDIRECT_ERROR_CODE ++ ";" ++ t.toStr ++ ";" ++ url ++ ";"
        ++ jsBoolString p ++ ";" ++ extra).data
      = REDIRECT_ERROR_CODE.data :: t.toStr.data :: url.data
        :: (jsBoolString p).data :: jsSplitAll ';' extra.data := by
  have hdata : (REDIRECT_ERROR_CODE ++ ";" ++ t.toStr ++ ";" ++ url ++ ";"
        ++ jsBoolString p ++ ";" ++ extra).data
      = REDIRECT_ERROR_CODE.data
          ++ (';' :: (t.toStr.data
          ++ (';' :: (url.data
          ++ (';' :: ((jsBoolString p).data
          ++ (';' :: extra.data))))))) := by
    have hsep : (";" : String).data = [';'] := rfl
    simp [String.data_append, hsep]
  rw [hdata]
  rw [jsSplitAll_append_sep ';' REDIRECT_ERROR_CODE.data _ (by decide)]
  rw [jsSplitAll_append_sep ';' t.toStr.data _ (sep_not_mem_toStr t)]
  rw [jsSplitAll_append_sep ';' url.data _ h]
  rw [jsSplitAll_append_sep ';' (jsBoolString p).data _ (sep_not_mem_jsBoolString p)]

/-- Truncating the split of a digest-plus-extra string at a limit of at
most four keeps only encoded fields: the extra content never reaches
the inspected positions. -/
theorem jsSplit_digest_extra (url : String) (t : RedirectType) (p : Bool)
    (extra : String) (n : Nat) (hn : n ≤ 4) (h : ';' ∉ url.data) :
    jsSplit (REDIRECT_ERROR_CODE ++ ";" ++ t.toStr ++ ";" ++ url ++ ";"
        ++ jsBoolString p ++ ";" ++ extra) ';' n
      = [REDIRECT_ERROR_CODE, t.toStr, url, jsBoolString p].take n := by
  unfold jsSplit
  rw [jsSplitAll_digest_extra url t p extra h]
  interval_cases n <;> rfl

/-- A digest-plus-extra string passes every field check of the
recognizer: the truncated split never reaches the extra content. -/
theorem isRedirectErrorDigest_extra (url : String) (t : RedirectType) (p : Bool)
    (extra : String) (h : ';' ∉ url.data) :
    isRedirectErrorDigest (REDIRECT_ERROR_CODE ++ ";" ++ t.toStr ++ ";" ++ url
      ++ ";" ++ jsBoolString p ++ ";" ++ extra) = true := by
  unfold isRedirectErrorDigest
  rw [jsSplit_digest_extra url t p extra 4 (by omega) h]
  cases t <;> cases p <;> rfl

/-- The recognition rule as the spec words it: the digest attribute is
a string whose delimiter-bounded split into at most four fields has
first field equal to the tag literal, second field one of the two
navigation-mode literals, a present third field, and fourth field
exactly the string form of a boolean. -/
def recognizeSpec (v : JSValue) : Prop :=
  ∃ s, v.digestStr = some s ∧
    ((jsSplit s ';' 4)[0]? = some REDIRECT_ERROR_CODE ∧
     ((jsSplit s ';' 4)[1]? = some "push" ∨ (jsSplit s ';' 4)[1]? = some "replace") ∧
     ((jsSplit s ';' 4)[2]?).isSome = true ∧
     ((jsSplit s ';' 4)[3]? = some "true" ∨ (jsSplit s ';' 4)[3]? = some "false"))

example : jsSplit "a;b;c;d;e" ';' 4 = ["a", "b", "c", "d"] := by decide
example : jsSplit "" ';' 4 = [""] := by decide
example : jsSplit ";" ';' 4 = ["", ""] := by decide
example : isRedirectError (getRedirectError "/x" .push true none) = true := by decide
example : isRedirectError (getRedirectError "a;b" .push false none) = false := by decide
example : getURLFromRedirectError (getRedirectError "a;b;c" .push false none) = none := by decide

/-- C1: the spec claims the round-trip of construction and the three
extractions returns the original triple for every destination,
including one containing the delimiter; with `d = "a;b;c"` the
constructed signal is not even recognized (the JavaScript
`split(';', 4)` truncates, so the fourth inspected field is `"b"`), and
URL extraction returns null rather than the destination. -/
theorem C1_roundtrip_counterexample :
    getURLFromRedirectError (getRedirectError "a;b;c" RedirectType.push false none)
      ≠ some "a;b;c" := by decide

/-- C1 (amended): for every destination that does not contain the
delimiter character, every navigation mode and every permanence flag,
the three extraction operations applied to the constructed signal
return the destination, the navigation mode, and 307 or 308 according
to the flag. -/
theorem C1_roundtrip_amended (d : String) (m : RedirectType) (p : Bool)
    (st : Option RequestStore) (h : ';' ∉ d.data) :
    getURLFromRedirectError (getRedirectError d m p st) = some d ∧
    getRedirectTypeFromError (getRedirectError d m p st) = .ok (some m.toStr) ∧
    getRedirectStatusCodeFromError (getRedirectError d m p st)
      = .ok (if p then 308 else 307) :=
  ⟨getURLFromRedirectError_encode d m p st h,
   getRedirectTypeFromError_encode d m p st h,
   getRedirectStatusCodeFromError_encode d m p st h⟩

theorem C1_roundtrip_amended_witness :
    (';' ∉ ("/dashboard" : String).data) ∧
    (getURLFromRedirectError (getRedirectError "/dashboard" RedirectType.push true none)
        = some "/dashboard" ∧
     getRedirectTypeFromError (getRedirectError "/dashboard" RedirectType.push true none)
        = .ok (some "push") ∧
     getRedirectStatusCodeFromError (getRedirectError "/dashboard" RedirectType.push true none)
        = .ok 308) :=
  ⟨by decide, C1_roundtrip_amended "/dashboard" RedirectType.push true none (by decide)⟩

/-- C2: the spec claims every constructed signal is recognized; with
destination `"a;b"` the truncated split puts `"b"` in the permanence
position, which is neither `"true"` nor `"false"`, so recognition
fails. -/
theorem C2_recognize_counterexample :
    isRedirectError (getRedirectError "a;b" RedirectType.replace false none) = false := by
  decide

/-- C2 (amended): every signal constructed from a destination that does
not contain the delimiter character is recognized. -/
theorem C2_recognize_amended (d : String) (m : RedirectType) (p : Bool)
    (st : Option RequestStore) (h : ';' ∉ d.data) :
    isRedirectError (getRedirectError d m p st) = true :=
  isRedirectError_encode d m p st h

theorem C2_recognize_amended_witness :
    (';' ∉ ("/login" : String).data) ∧
    isRedirectError (getRedirectError "/login" RedirectType.replace false none) = true :=
  ⟨by decide, C2_recognize_amended "/login" RedirectType.replace false none (by decide)⟩

/-- C3: the recognizer accepts exactly the values whose digest is a
string splitting (bounded, into at most four fields) into the tag
literal, one of the two navigation-mode literals, a present third
field, and a boolean literal; and it rejects undefined, an object with
no digest, a digest that is only the tag, an invalid navigation mode,
and an invalid permanence field. -/
theorem C3_recognizer_characterization :
    (∀ v : JSValue, isRedirectError v = true ↔ recognizeSpec v) ∧
    isRedirectError JSValue.undefinedV = false ∧
    isRedirectError (JSValue.obj "boom" JSProp.missing none) = false ∧
    isRedirectError (JSValue.obj REDIRECT_ERROR_CODE
      (JSProp.strProp REDIRECT_ERROR_CODE) none) = false ∧
    isRedirectError (JSValue.obj REDIRECT_ERROR_CODE
      (JSProp.strProp "NEXT_REDIRECT;forward;/x;true") none) = false ∧
    isRedirectError (JSValue.obj REDIRECT_ERROR_CODE
      (JSProp.strProp "NEXT_REDIRECT;push;/x;yes") none) = false := by
  refine ⟨?_, by decide, by decide, by decide, by decide, by decide⟩
  intro v
  cases v with
  | undefinedV => simp [isRedirectError, recognizeSpec, JSValue.digestStr]
  | nullV => simp [isRedirectError, recognizeSpec, JSValue.digestStr]
  | obj m d c =>
    cases d with
    | missing => simp [isRedirectError, recognizeSpec, JSValue.digestStr]
    | nonStringProp => simp [isRedirectError, recognizeSpec, JSValue.digestStr]
    | strProp s =>
      simp only [isRedirectError, recognizeSpec, JSValue.digestStr, isRedirectErrorDigest,
        Option.some.injEq, exists_eq_left', Bool.and_eq_true, Bool.or_eq_true, beq_iff_eq]
      tauto

/-- C4: the recognizer is a total boolean probe: on every value it
returns a boolean, and it returns false whenever the candidate has no
string-typed digest attribute. -/
theorem C4_recognizer_total_safe :
    ∀ v : JSValue,
      (isRedirectError v = true ∨ isRedirectError v = false) ∧
      (v.digestStr = none → isRedirectError v = false) := by
  intro v
  constructor
  · cases h : isRedirectError v
    · exact Or.inr rfl
    · exact Or.inl rfl
  · intro hnone
    unfold isRedirectError
    rw [hnone]

theorem C4_recognizer_total_safe_witness :
    JSValue.digestStr JSValue.undefinedV = none ∧
    isRedirectError JSValue.undefinedV = false :=
  ⟨rfl, (C4_recognizer_total_safe JSValue.undefinedV).2 rfl⟩

/-- C5: the spec claims `redirect(url)` always throws a recognized
signal; with `url = "a;b"` the thrown value is not recognized, because
the delimiter inside the destination shifts the inspected fields. -/
theorem C5_throw_helpers_counterexample :
    isRedirectError (redirect "a;b" redirectTypeDefault none) = false := by decide

/-- C5 (amended): for every destination without the delimiter
character, `redirect(url)` (with the default navigation mode) throws a
value that is recognized, whose navigation mode extracts to `replace`
and whose status intent is 307; and `permanentRedirect(url, push)`
throws a value whose navigation mode extracts to `push` and whose
status intent is 308. -/
theorem C5_throw_helpers_amended (url : String) (st : Option RequestStore)
    (h : ';' ∉ url.data) :
    isRedirectError (redirect url redirectTypeDefault st) = true ∧
    getRedirectTypeFromError (redirect url redirectTypeDefault st)
      = .ok (some RedirectType.replace.toStr) ∧
    getRedirectStatusCodeFromError (redirect url redirectTypeDefault st) = .ok 307 ∧
    getRedirectTypeFromError (permanentRedirect url RedirectType.push st)
      = .ok (some RedirectType.push.toStr) ∧
    getRedirectStatusCodeFromError (permanentRedirect url RedirectType.push st) = .ok 308 :=
  ⟨isRedirectError_encode url RedirectType.replace false st h,
   getRedirectTypeFromError_encode url RedirectType.replace false st h,
   getRedirectStatusCodeFromError_encode url RedirectType.replace false st h,
   getRedirectTypeFromError_encode url RedirectType.push true st h,
   getRedirectStatusCodeFromError_encode url RedirectType.push true st h⟩

theorem C5_throw_helpers_amended_witness :
    (';' ∉ ("/x" : String).data) ∧
    (isRedirectError (redirect "/x" redirectTypeDefault none) = true ∧
     getRedirectTypeFromError (redirect "/x" redirectTypeDefault none)
        = .ok (some RedirectType.replace.toStr) ∧
     getRedirectStatusCodeFromError (redirect "/x" redirectTypeDefault none) = .ok 307 ∧
     getRedirectTypeFromError (permanentRedirect "/x" RedirectType.push none)
        = .ok (some RedirectType.push.toStr) ∧
     getRedirectStatusCodeFromError (permanentRedirect "/x" RedirectType.push none)
        = .ok 308) :=
  ⟨by decide, C5_throw_helpers_amended "/x" none (by decide)⟩

/-- C6: on every value the recognizer rejects, both the
navigation-mode and the status-code extraction fail fast with the
`'Not a redirect error'` error. -/
theorem C6_extractors_fail_fast (v : JSValue) (h : isRedirectError v = false) :
    getRedirectTypeFromError v = .error "Not a redirect error" ∧
    getRedirectStatusCodeFromError v = .error "Not a redirect error" := by
  cases v with
  | undefinedV => exact ⟨rfl, rfl⟩
  | nullV => exact ⟨rfl, rfl⟩
  | obj m d c =>
    cases d with
    | missing => exact ⟨rfl, rfl⟩
    | nonStringProp => exact ⟨rfl, rfl⟩
    | strProp s =>
      have hd : isRedirectErrorDigest s = false := h
      simp [getRedirectTypeFromError, getRedirectStatusCodeFromError, JSValue.digestStr, hd]

theorem C6_extractors_fail_fast_witness :
    isRedirectError (JSValue.obj "boom" JSProp.missing none) = false ∧
    (getRedirectTypeFromError (JSValue.obj "boom" JSProp.missing none)
        = .error "Not a redirect error" ∧
     getRedirectStatusCodeFromError (JSValue.obj "boom" JSProp.missing none)
        = .error "Not a redirect error") :=
  ⟨rfl, C6_extractors_fail_fast (JSValue.obj "boom" JSProp.missing none) rfl⟩

/-- C7: the constructed signal's message is the tag literal and its
digest is exactly the four fields tag, navigation mode, destination
and boolean string, joined in that order by the single delimiter. -/
theorem C7_wire_format (d : String) (m : RedirectType) (p : Bool)
    (st : Option RequestStore) :
    (getRedirectError d m p st).messageStr = some REDIRECT_ERROR_CODE ∧
    (getRedirectError d m p st).digestStr
      = some (String.intercalate ";" [REDIRECT_ERROR_CODE, m.toStr, d, jsBoolString p]) :=
  ⟨rfl, rfl⟩

/-- C8: constructing with no active request store attaches no cookie
reference, and all three extraction operations give the same results
as they would with any store (they read only the digest). -/
theorem C8_no_store_frame (d : String) (m : RedirectType) (p : Bool)
    (st : Option RequestStore) :
    (getRedirectError d m p none).cookiesRef = none ∧
    getURLFromRedirectError (getRedirectError d m p none)
      = getURLFromRedirectError (getRedirectError d m p st) ∧
    getRedirectTypeFromError (getRedirectError d m p none)
      = getRedirectTypeFromError (getRedirectError d m p st) ∧
    getRedirectStatusCodeFromError (getRedirectError d m p none)
      = getRedirectStatusCodeFromError (getRedirectError d m p st) :=
  ⟨rfl, rfl, rfl, rfl⟩

/-- C9: on every value the recognizer rejects, URL extraction returns
null (it never throws, unlike the other two extractors). -/
theorem C9_url_null_on_non_redirect (v : JSValue) (h : isRedirectError v = false) :
    getURLFromRedirectError v = none := by
  cases v with
  | undefinedV => rfl
  | nullV => rfl
  | obj m d c =>
    cases d with
    | missing => rfl
    | nonStringProp => rfl
    | strProp s =>
      have hd : isRedirectErrorDigest s = false := h
      simp [getURLFromRedirectError, JSValue.digestStr, hd]

theorem C9_url_null_on_non_redirect_witness :
    isRedirectError JSValue.nullV = false ∧
    getURLFromRedirectError JSValue.nullV = none :=
  ⟨rfl, C9_url_null_on_non_redirect JSValue.nullV rfl⟩

/-- C10: a digest with a valid four-field prefix is recognized even
when arbitrary extra delimiter-separated content follows, and the
extraction operations read only the first fields. -/
theorem C10_extra_fields_ignored (v : JSValue) (msg d extra : String)
    (m : RedirectType) (p : Bool) (ck : Option ResponseCookies)
    (hv : v = JSValue.obj msg (JSProp.strProp (REDIRECT_ERROR_CODE ++ ";" ++ m.toStr
      ++ ";" ++ d ++ ";" ++ jsBoolString p ++ ";" ++ extra)) ck)
    (h : ';' ∉ d.data) :
    isRedirectError v = true ∧
    getURLFromRedirectError v = some d ∧
    getRedirectTypeFromError v = .ok (some m.toStr) ∧
    getRedirectStatusCodeFromError v = .ok (if p then 308 else 307) := by
  subst hv
  refine ⟨isRedirectErrorDigest_extra d m p extra h, ?_, ?_, ?_⟩
  · show (if isRedirectErrorDigest _ then _ else none) = some d
    rw [isRedirectErrorDigest_extra d m p extra h, if_pos rfl,
      jsSplit_digest_extra d m p extra 3 (by omega) h]
    rfl
  · show (if isRedirectErrorDigest _ then _ else _) = Except.ok (some m.toStr)
    rw [isRedirectErrorDigest_extra d m p extra h, if_pos rfl,
      jsSplit_digest_extra d m p extra 2 (by omega) h]
    rfl
  · show (if isRedirectErrorDigest _ then _ else _)
        = Except.ok (if p then 308 else 307)
    rw [isRedirectErrorDigest_extra d m p extra h, if_pos rfl,
      jsSplit_digest_extra d m p extra 4 (by omega) h]
    cases p <;> rfl

theorem C10_extra_fields_ignored_witness :
    (';' ∉ ("/a" : String).data) ∧
    (isRedirectError (JSValue.obj "m" (JSProp.strProp
        (REDIRECT_ERROR_CODE ++ ";" ++ RedirectType.push.toStr ++ ";" ++ "/a" ++ ";"
          ++ jsBoolString true ++ ";" ++ "b;c")) none) = true ∧
     getURLFromRedirectError (JSValue.obj "m" (JSProp.strProp
        (REDIRECT_ERROR_CODE ++ ";" ++ RedirectType.push.toStr ++ ";" ++ "/a" ++ ";"
          ++ jsBoolString true ++ ";" ++ "b;c")) none) = some "/a" ∧
     getRedirectTypeFromError (JSValue.obj "m" (JSProp.strProp
        (REDIRECT_ERROR_CODE ++ ";" ++ RedirectType.push.toStr ++ ";" ++ "/a" ++ ";"
          ++ jsBoolString true ++ ";" ++ "b;c")) none) = .ok (some "push") ∧
     getRedirectStatusCodeFromError (JSValue.obj "m" (JSProp.strProp
        (REDIRECT_ERROR_CODE ++ ";" ++ RedirectType.push.toStr ++ ";" ++ "/a" ++ ";"
          ++ jsBoolString true ++ ";" ++ "b;c")) none) = .ok 308) :=
  ⟨by decide, C10_extra_fields_ignored _ "m" "/a" "b;c" RedirectType.push true none
    rfl (by decide)⟩
